import Mathlib

/-!
Verification of the grading and statistics engines of the
`smart-grading-system` repository (Python, SQLite console app).

Shallow embedding conventions:
* Python strings are modelled as `List Char`; `str.strip()`, `str.upper()`
  and `str.split()` (no separator) are modelled character-by-character
  (`pyStrip`, `pyUpper`, `wordCount`).
* Python numbers (`int` question points, `float` scores and percentages)
  are modelled as exact rationals `ℚ`; the claims under study are about
  the arithmetic expressions the code writes, not about binary rounding.
* Database rows (`questions`, `submissions`, `answers`) are modelled as
  structures holding exactly the fields the grading/statistics code reads.
* `add_question` (database.py:349) stores a missing `correct_answer` as
  the empty string, so "missing correct_answer" is modelled as `[]`.
-/

/-- Python `str.isspace` on the ASCII whitespace characters recognised by
`str.strip()` / `str.split()`: space, tab, newline, vertical tab,
form feed, carriage return. -/
def pyIsSpace (c : Char) : Bool :=
  c = ' ' || c = '\t' || c = '\n' || c = Char.ofNat 11 || c = Char.ofNat 12 || c = '\r'

/-- Python `str.strip()`: remove leading and trailing whitespace. -/
def pyStrip (s : List Char) : List Char :=
  ((s.dropWhile pyIsSpace).reverse.dropWhile pyIsSpace).reverse

/-- Python `str.upper()` (ASCII case mapping, which is all the repository
feeds it: answer letters A-D and typed answers). -/
def pyUpper (s : List Char) : List Char :=
  s.map Char.toUpper

/-- `len(s.split())` for argument-less `str.split()`: the number of maximal
runs of non-whitespace characters. The boolean accumulator records whether
the previous character was inside a word. -/
def countWordsAux : Bool → List Char → Nat
  | _, [] => 0
  | inWord, c :: cs =>
    if pyIsSpace c then countWordsAux false cs
    else (if inWord then 0 else 1) + countWordsAux true cs

/-- Number of whitespace-separated words in `s`, i.e. `len(s.split())`. -/
def wordCount (s : List Char) : Nat := countWordsAux false s

/-- Question type, from the `questions` table CHECK constraint
(`question_type IN ('objective', 'subjective')`). -/
inductive QuestionType
  | objective
  | subjective
deriving DecidableEq

/-- The fields of a `questions` row that `_grade_answer` reads.
`points` is an INTEGER column validated to be at least 1 by the teacher
UI, but the grading code multiplies it by 0.3/0.6/0.8, so it is carried
as a rational here. A question created without a `correct_answer` entry
is stored with `correct_answer = ''` (database.py:349), i.e. `[]`. -/
structure Question where
  question_type : QuestionType
  correct_answer : List Char
  points : ℚ
deriving DecidableEq

/-- `DatabaseManager._grade_answer` (database.py:489-517): grade one
answer, returning `(score, feedback)`. Objective questions compare
`student_answer.upper().strip()` with `correct_answer.upper().strip()`;
subjective questions band on `len(student_answer.split())` when the
stripped answer is non-empty. -/
def grade_answer (question : Question) (student_answer : List Char) : ℚ × List Char :=
  match question.question_type with
  | .objective =>
    if pyStrip (pyUpper student_answer) = pyStrip (pyUpper question.correct_answer) then
      (question.points, "Correct! Well done.".toList)
    else
      (0, "Incorrect. The correct answer is ".toList ++ question.correct_answer ++ ".".toList)
  | .subjective =>
    if pyStrip student_answer ≠ [] then
      let word_count := wordCount student_answer
      if word_count ≥ 10 then
        (question.points * (8 / 10), "Good response! Your answer shows understanding.".toList)
      else if word_count ≥ 5 then
        (question.points * (6 / 10), "Adequate response. Consider providing more detail.".toList)
      else
        (question.points * (3 / 10), "Brief response. Please elaborate for full credit.".toList)
    else
      (0, "No answer provided.".toList)

/-- One stored `answers` row, as written by `save_submission`
(database.py:466-471): the raw answer, the score from `_grade_answer`,
and the feedback text. -/
structure AnswerRow where
  student_answer : List Char
  score : ℚ
  feedback : List Char
deriving DecidableEq

/-- The stored `submissions` row after `save_submission` finishes
(database.py:443-478), together with the answer rows it inserted. -/
structure SubmissionRow where
  total_score : ℚ
  max_score : ℚ
  answers : List AnswerRow
deriving DecidableEq

/-- `submission_data['answers'].get(str(i), '')` (database.py:462): the
answers dict keyed by the stringified question index, modelled as an
association list on the index itself (`str` is injective on indices). -/
def lookup_answer (answers : List (Nat × List Char)) (i : Nat) : List Char :=
  (answers.lookup i).getD []

/-- `DatabaseManager.save_submission` (database.py:425-487), database
effects projected away: returns `none` when the assignment has no
questions (the `if not questions: return False` guard), otherwise the
submission row it stores. `max_score = sum(q['points'])`; the loop
iterates `enumerate(questions)`, grades `answers.get(str(i), '')`, and
accumulates `total_score += score`, which the final UPDATE stores. -/
def save_submission (questions : List Question) (answers : List (Nat × List Char)) :
    Option SubmissionRow :=
  if questions = [] then none
  else
    let rows := questions.enum.map fun iq =>
      let student_answer := lookup_answer answers iq.1
      let graded := grade_answer iq.2 student_answer
      AnswerRow.mk student_answer graded.1 graded.2
    let total_score := rows.foldl (fun acc r => acc + r.score) 0
    some (SubmissionRow.mk total_score (questions.map Question.points).sum rows)

/-- The two fields of a `submissions` row that the statistics code reads
(`total_score`, `max_score`). -/
structure SubRecord where
  total_score : ℚ
  max_score : ℚ
deriving DecidableEq

/-- The dict returned by `PerformanceCalculator.calculate_class_statistics`
(user.py:211-246). -/
structure ClassStatistics where
  total_submissions : Nat
  average_score : ℚ
  highest_score : ℚ
  lowest_score : ℚ
  pass_rate : ℚ
deriving DecidableEq

/-- Python `max` over a list, as applied by the statistics code; the code
only applies it to non-empty lists (where Python would otherwise raise),
so the `[]` default is never reached in guarded use. -/
def pyMax : List ℚ → ℚ
  | [] => 0
  | x :: xs => xs.foldl max x

/-- Python `min` over a list; same usage discipline as `pyMax`. -/
def pyMin : List ℚ → ℚ
  | [] => 0
  | x :: xs => xs.foldl min x

/-- `PerformanceCalculator.calculate_percentage` (user.py:176-181). -/
def calculate_percentage (score max_score : ℚ) : ℚ :=
  if max_score = 0 then 0 else score / max_score * 100

/-- `PerformanceCalculator.get_grade_letter` (user.py:183-195). -/
def get_grade_letter (percentage : ℚ) : String :=
  if percentage ≥ 90 then "A"
  else if percentage ≥ 80 then "B"
  else if percentage ≥ 70 then "C"
  else if percentage ≥ 60 then "D"
  else "F"

/-- `PerformanceCalculator.get_grade_description` (user.py:197-209). -/
def get_grade_description (percentage : ℚ) : String :=
  if percentage ≥ 90 then "Excellent"
  else if percentage ≥ 80 then "Very Good"
  else if percentage ≥ 70 then "Good"
  else if percentage ≥ 60 then "Satisfactory"
  else "Needs Improvement"

/-- The percentages list built by the statistics code from submissions
with positive `max_score` (user.py:223-227). -/
def qualifying_percentages (submissions : List SubRecord) : List ℚ :=
  (submissions.filter fun s => s.max_score > 0).map
    fun s => s.total_score / s.max_score * 100

/-- `PerformanceCalculator.calculate_class_statistics` (user.py:211-246). -/
def calculate_class_statistics (submissions : List SubRecord) : ClassStatistics :=
  if submissions = [] then
    ClassStatistics.mk 0 0 0 0 0
  else
    let scores := qualifying_percentages submissions
    if scores = [] then
      ClassStatistics.mk submissions.length 0 0 0 0
    else
      let passing_scores := scores.filter fun s => s ≥ 60
      ClassStatistics.mk submissions.length
        (scores.sum / (scores.length : ℚ))
        (pyMax scores)
        (pyMin scores)
        (if scores ≠ [] then ((passing_scores.length : ℚ) / (scores.length : ℚ)) * 100 else 0)

/-- `Student._analyze_performance_trend` (student.py:604-621): build the
percentage list from submissions with positive `max_score`, then compare
the last entry (`scores[-1]`) with the first (`scores[0]`) against a
5-point threshold. The caller (student.py:577-581) passes the last three
submissions sorted ascending by `submitted_at`. -/
def analyze_performance_trend (recent_submissions : List SubRecord) : String :=
  let scores := qualifying_percentages recent_submissions
  if scores.length < 2 then "Insufficient data"
  else if scores.getLastD 0 > scores.headD 0 + 5 then
    " Improving (Keep up the good work!)"
  else if scores.getLastD 0 < scores.headD 0 - 5 then
    " Declining (Consider additional study time)"
  else
    " Stable (Consistent performance)"

/-- The `avg_percentage` local of `Teacher.view_assignment_statistics`
(teacher.py:1013-1016): `total_score / total_possible * 100` over all of
the assignment's submissions, guarded to 0 when `total_possible` is not
positive. -/
def avg_percentage (assignment_submissions : List SubRecord) : ℚ :=
  let total_score := (assignment_submissions.map SubRecord.total_score).sum
  let total_possible := (assignment_submissions.map SubRecord.max_score).sum
  if total_possible > 0 then total_score / total_possible * 100 else 0

/-- The difficulty label computed per assignment in
`Teacher.view_assignment_statistics` (teacher.py:1011-1028): the
Easy/Medium/Hard banding of `avg_percentage`; "N/A" when the assignment
has no submissions. -/
def difficulty_classification (assignment_submissions : List SubRecord) : String :=
  if assignment_submissions = [] then "N/A"
  else
    if avg_percentage assignment_submissions ≥ 80 then "Easy"
    else if avg_percentage assignment_submissions ≥ 60 then "Medium"
    else "Hard"

/-- ASCII case mapping does not change whether a character is whitespace. -/
theorem pyIsSpace_ofNat_upper_range : ∀ m < 91, 65 ≤ m → pyIsSpace (Char.ofNat m) = false := by
  decide

theorem pyIsSpace_toUpper (c : Char) : pyIsSpace c.toUpper = pyIsSpace c := by
  by_cases h : pyIsSpace c = true
  · have hc := h
    simp only [pyIsSpace, Bool.or_eq_true, decide_eq_true_eq] at hc
    rcases hc with ((((rfl | rfl) | rfl) | rfl) | rfl) | rfl <;> decide
  · rw [Bool.not_eq_true] at h
    rw [h]
    show pyIsSpace (if c.toNat ≥ 97 ∧ c.toNat ≤ 122 then Char.ofNat (c.toNat - 32) else c) = false
    split
    · rename_i hrange
      exact pyIsSpace_ofNat_upper_range (c.toNat - 32) (by omega) (by omega)
    · exact h

theorem dropWhile_forall_iff {α : Type} (p : α → Bool) (l : List α) :
    (∀ x ∈ l.dropWhile p, p x) ↔ ∀ x ∈ l, p x := by
  constructor
  · intro hd x hx
    rw [← List.takeWhile_append_dropWhile p l, List.mem_append] at hx
    rcases hx with hx | hx
    · exact List.mem_takeWhile_imp hx
    · exact hd x hx
  · intro hall x hx
    exact hall x ((List.dropWhile_sublist p).subset hx)

/-- `s.strip()` is empty iff every character of `s` is whitespace. -/
theorem pyStrip_eq_nil_iff (s : List Char) : pyStrip s = [] ↔ ∀ c ∈ s, pyIsSpace c := by
  unfold pyStrip
  rw [List.reverse_eq_nil_iff, List.dropWhile_eq_nil_iff]
  constructor
  · intro h
    rw [← dropWhile_forall_iff pyIsSpace s]
    intro x hx
    exact h x (List.mem_reverse.mpr hx)
  · intro h x hx
    exact (dropWhile_forall_iff pyIsSpace s).mpr h x (List.mem_reverse.mp hx)

theorem countWordsAux_false_eq_zero_iff (s : List Char) :
    countWordsAux false s = 0 ↔ ∀ c ∈ s, pyIsSpace c := by
  induction s with
  | nil => simp [countWordsAux]
  | cons c cs ih =>
    by_cases h : pyIsSpace c = true
    · simp [countWordsAux, h, ih]
    · simp [countWordsAux, h]

/-- `len(s.split()) == 0` exactly when `s.strip()` is empty. -/
theorem wordCount_eq_zero_iff (s : List Char) : wordCount s = 0 ↔ pyStrip s = [] := by
  rw [wordCount, countWordsAux_false_eq_zero_iff, pyStrip_eq_nil_iff]

theorem le_foldl_max (xs : List ℚ) (a : ℚ) : a ≤ xs.foldl max a := by
  induction xs generalizing a with
  | nil => exact le_refl a
  | cons x xs ih => exact le_trans (le_max_left a x) (ih (max a x))

theorem mem_le_foldl_max (xs : List ℚ) (a x : ℚ) (hx : x ∈ xs) : x ≤ xs.foldl max a := by
  induction xs generalizing a with
  | nil => cases hx
  | cons y ys ih =>
    rcases List.mem_cons.mp hx with rfl | hmem
    · exact le_trans (le_max_right a x) (le_foldl_max ys (max a x))
    · exact ih (max a y) hmem

theorem foldl_max_mem (xs : List ℚ) (a : ℚ) : xs.foldl max a = a ∨ xs.foldl max a ∈ xs := by
  induction xs generalizing a with
  | nil => exact Or.inl rfl
  | cons x xs ih =>
    rcases ih (max a x) with h | h
    · rcases max_choice a x with hm | hm
      · exact Or.inl (by rw [List.foldl_cons, h, hm])
      · refine Or.inr ?_
        rw [List.foldl_cons, h, hm]
        exact List.mem_cons_self x xs
    · exact Or.inr (List.mem_cons_of_mem x h)

theorem foldl_min_le (xs : List ℚ) (a : ℚ) : xs.foldl min a ≤ a := by
  induction xs generalizing a with
  | nil => exact le_refl a
  | cons x xs ih => exact le_trans (ih (min a x)) (min_le_left a x)

theorem foldl_min_le_mem (xs : List ℚ) (a x : ℚ) (hx : x ∈ xs) : xs.foldl min a ≤ x := by
  induction xs generalizing a with
  | nil => cases hx
  | cons y ys ih =>
    rcases List.mem_cons.mp hx with rfl | hmem
    · exact le_trans (foldl_min_le ys (min a x)) (min_le_right a x)
    · exact ih (min a y) hmem

theorem foldl_min_mem (xs : List ℚ) (a : ℚ) : xs.foldl min a = a ∨ xs.foldl min a ∈ xs := by
  induction xs generalizing a with
  | nil => exact Or.inl rfl
  | cons x xs ih =>
    rcases ih (min a x) with h | h
    · rcases min_choice a x with hm | hm
      · exact Or.inl (by rw [List.foldl_cons, h, hm])
      · refine Or.inr ?_
        rw [List.foldl_cons, h, hm]
        exact List.mem_cons_self x xs
    · exact Or.inr (List.mem_cons_of_mem x h)

/-- `max(scores)` is an element of any non-empty `scores`. -/
theorem pyMax_mem (l : List ℚ) (h : l ≠ []) : pyMax l ∈ l := by
  match l with
  | [] => exact absurd rfl h
  | x :: xs =>
    rcases foldl_max_mem xs x with hm | hm
    · rw [pyMax, hm]; exact List.mem_cons_self x xs
    · exact List.mem_cons_of_mem x (by rw [pyMax]; exact hm)

/-- Every element of `scores` is at most `max(scores)`. -/
theorem le_pyMax (l : List ℚ) (x : ℚ) (hx : x ∈ l) : x ≤ pyMax l := by
  match l with
  | [] => cases hx
  | y :: ys =>
    rcases List.mem_cons.mp hx with rfl | hmem
    · exact le_foldl_max ys x
    · exact mem_le_foldl_max ys y x hmem

/-- `min(scores)` is an element of any non-empty `scores`. -/
theorem pyMin_mem (l : List ℚ) (h : l ≠ []) : pyMin l ∈ l := by
  match l with
  | [] => exact absurd rfl h
  | x :: xs =>
    rcases foldl_min_mem xs x with hm | hm
    · rw [pyMin, hm]; exact List.mem_cons_self x xs
    · exact List.mem_cons_of_mem x (by rw [pyMin]; exact hm)

/-- `min(scores)` is at most every element of `scores`. -/
theorem pyMin_le (l : List ℚ) (x : ℚ) (hx : x ∈ l) : pyMin l ≤ x := by
  match l with
  | [] => cases hx
  | y :: ys =>
    rcases List.mem_cons.mp hx with rfl | hmem
    · exact foldl_min_le ys x
    · exact foldl_min_le_mem ys y x hmem

/-- The `total_score += score` loop accumulates exactly the sum of the
per-answer scores. -/
theorem foldl_add_score (rows : List AnswerRow) (a : ℚ) :
    rows.foldl (fun acc r => acc + r.score) a = a + (rows.map AnswerRow.score).sum := by
  induction rows generalizing a with
  | nil => simp
  | cons r rs ih =>
    rw [List.foldl_cons, ih, List.map_cons, List.sum_cons]
    ring

/-- Case-mapping a string does not change whether its strip is empty. -/
theorem pyStrip_pyUpper_eq_nil_iff (s : List Char) :
    pyStrip (pyUpper s) = [] ↔ pyStrip s = [] := by
  rw [pyStrip_eq_nil_iff, pyStrip_eq_nil_iff, pyUpper]
  constructor
  · intro h c hc
    have hu := h c.toUpper (List.mem_map_of_mem _ hc)
    rwa [pyIsSpace_toUpper] at hu
  · intro h c hc
    rcases List.mem_map.mp hc with ⟨d, hd, rfl⟩
    rw [pyIsSpace_toUpper]
    exact h d hd

/-- C7: `calculate_percentage s m` equals `100 * s / m` whenever
`m ≠ 0`, and equals `0` when `m = 0`: the division is guarded and never
an error. -/
theorem C7_percentage_guarded (s m : ℚ) :
    (m ≠ 0 → calculate_percentage s m = 100 * s / m) ∧
    calculate_percentage s 0 = 0 := by
  constructor
  · intro hm
    unfold calculate_percentage
    rw [if_neg hm]
    ring
  · unfold calculate_percentage
    rw [if_pos rfl]

/-- C7 witness: concrete evaluation at `s = 50`, `m = 100` and `m = 0`. -/
theorem C7_percentage_guarded_witness :
    (100 : ℚ) ≠ 0 ∧ calculate_percentage 50 100 = 100 * 50 / 100 ∧
    calculate_percentage 50 0 = 0 :=
  ⟨by norm_num, (C7_percentage_guarded 50 100).1 (by norm_num),
    (C7_percentage_guarded 50 0).2⟩

/-- C6: `get_grade_letter` maps exactly the bands A: ≥90, B: [80,90),
C: [70,80), D: [60,70), F: <60 (lower bounds inclusive), and
`get_grade_description` maps the same bands to Excellent / Very Good /
Good / Satisfactory / Needs Improvement; in particular
`get_grade_letter 90 = "A"`, `get_grade_letter 89.999 = "B"`,
`get_grade_letter 60 = "D"`, `get_grade_letter 59.999 = "F"`. -/
theorem C6_grade_letter_bands (p : ℚ) :
    ((get_grade_letter p = "A" ↔ 90 ≤ p) ∧
     (get_grade_letter p = "B" ↔ 80 ≤ p ∧ p < 90) ∧
     (get_grade_letter p = "C" ↔ 70 ≤ p ∧ p < 80) ∧
     (get_grade_letter p = "D" ↔ 60 ≤ p ∧ p < 70) ∧
     (get_grade_letter p = "F" ↔ p < 60) ∧
     (get_grade_description p = "Excellent" ↔ 90 ≤ p) ∧
     (get_grade_description p = "Very Good" ↔ 80 ≤ p ∧ p < 90) ∧
     (get_grade_description p = "Good" ↔ 70 ≤ p ∧ p < 80) ∧
     (get_grade_description p = "Satisfactory" ↔ 60 ≤ p ∧ p < 70) ∧
     (get_grade_description p = "Needs Improvement" ↔ p < 60)) ∧
    (get_grade_letter 90 = "A" ∧ get_grade_letter (89999 / 1000) = "B" ∧
     get_grade_letter 60 = "D" ∧ get_grade_letter (59999 / 1000) = "F") := by
  constructor
  · unfold get_grade_letter get_grade_description
    split_ifs with h1 h2 h3 h4 <;> simp_all <;> try linarith
    all_goals (repeat' constructor)
    all_goals (intros; linarith)

  · refine ⟨?_, ?_, ?_, ?_⟩ <;> norm_num [get_grade_letter]

/-- C9: the assignment difficulty label is Easy when the average
submission percentage is at least 80, Medium when it is in [60, 80),
Hard when below 60, and N/A when the assignment has no submissions. -/
theorem C9_difficulty_bands (subs : List SubRecord) :
    (subs = [] → difficulty_classification subs = "N/A") ∧
    (subs ≠ [] →
      (80 ≤ avg_percentage subs → difficulty_classification subs = "Easy") ∧
      (60 ≤ avg_percentage subs → avg_percentage subs < 80 →
        difficulty_classification subs = "Medium") ∧
      (avg_percentage subs < 60 → difficulty_classification subs = "Hard")) := by
  constructor
  · intro h
    subst h
    rfl
  · intro hne
    unfold difficulty_classification
    rw [if_neg hne]
    refine ⟨fun h80 => ?_, fun h60 h80 => ?_, fun h60 => ?_⟩
    · rw [if_pos (by linarith)]
    · rw [if_neg (by simpa using h80), if_pos (by linarith)]
    · rw [if_neg (by simp; linarith), if_neg (by simp; linarith)]

/-- C9 witness: a single submission at 80 percent makes the assignment
Easy, and the empty list gives N/A. -/
theorem C9_difficulty_bands_witness :
    ([SubRecord.mk 80 100] : List SubRecord) ≠ [] ∧
    80 ≤ avg_percentage [SubRecord.mk 80 100] ∧
    difficulty_classification [SubRecord.mk 80 100] = "Easy" ∧
    difficulty_classification [] = "N/A" := by
  have havg : 80 ≤ avg_percentage [SubRecord.mk 80 100] := by
    norm_num [avg_percentage]
  exact ⟨List.cons_ne_nil _ _, havg,
    ((C9_difficulty_bands [SubRecord.mk 80 100]).2 (List.cons_ne_nil _ _)).1 havg,
    (C9_difficulty_bands []).1 rfl⟩

/-- C10: a subjective answer's score never reaches the question's
points: it is bounded by `points * 0.8`, which is strictly below
`points` whenever `points` is positive. -/
theorem C10_subjective_never_full (q : Question) (ans : List Char)
    (hq : q.question_type = QuestionType.subjective) (hp : 0 < q.points) :
    (grade_answer q ans).1 ≤ q.points * (8 / 10) ∧ (grade_answer q ans).1 < q.points := by
  obtain ⟨t, ca, pts⟩ := q
  cases t with
  | objective => cases hq
  | subjective =>
    simp only [grade_answer]
    simp only at hp
    split_ifs <;> constructor <;> simp <;> linarith

/-- C10 witness: a 10-point subjective question graded on a one-word
answer scores below the full 10 points. -/
theorem C10_subjective_never_full_witness :
    (Question.mk QuestionType.subjective [] 10).question_type = QuestionType.subjective ∧
    (0 : ℚ) < 10 ∧
    ((grade_answer (Question.mk QuestionType.subjective [] 10) "hello".toList).1 ≤ 10 * (8 / 10) ∧
     (grade_answer (Question.mk QuestionType.subjective [] 10) "hello".toList).1 < 10) :=
  ⟨rfl, by norm_num,
    C10_subjective_never_full (Question.mk QuestionType.subjective [] 10) "hello".toList rfl
      (by norm_num)⟩

/-- C2: objective grading awards exactly `points` when the
case-insensitive, whitespace-trimmed student answer equals the
case-insensitive, whitespace-trimmed correct answer and 0 otherwise, so
the score is always 0 or `points`; in particular " a " and "A" grade
alike against `correct_answer = "A"`. -/
theorem C2_objective_matching (q : Question) (ans : List Char)
    (hq : q.question_type = QuestionType.objective) :
    ((grade_answer q ans).1 =
      if pyStrip (pyUpper ans) = pyStrip (pyUpper q.correct_answer) then q.points else 0) ∧
    ((grade_answer q ans).1 = 0 ∨ (grade_answer q ans).1 = q.points) ∧
    (q.correct_answer = "A".toList →
      (grade_answer q " a ".toList).1 = (grade_answer q "A".toList).1) := by
  obtain ⟨t, ca, pts⟩ := q
  cases t with
  | subjective => cases hq
  | objective =>
    refine ⟨?_, ?_, ?_⟩
    · by_cases hc : pyStrip (pyUpper ans) = pyStrip (pyUpper ca)
      · simp [grade_answer, hc]
      · simp [grade_answer, hc]
    · by_cases hc : pyStrip (pyUpper ans) = pyStrip (pyUpper ca)
      · right
        simp [grade_answer, hc]
      · left
        simp [grade_answer, hc]
    · intro hca
      simp only at hca
      subst hca
      have h1 : pyStrip (pyUpper [' ', 'a', ' ']) = pyStrip (pyUpper ['A']) := by decide
      simp [grade_answer, h1]

/-- C2 witness: concrete objective question with correct answer "A";
grading "b" gives 0 or full points (here 0). -/
theorem C2_objective_matching_witness :
    (Question.mk QuestionType.objective "A".toList 5).question_type = QuestionType.objective ∧
    ((grade_answer (Question.mk QuestionType.objective "A".toList 5) "b".toList).1 = 0 ∨
     (grade_answer (Question.mk QuestionType.objective "A".toList 5) "b".toList).1 =
       (Question.mk QuestionType.objective "A".toList 5).points) :=
  ⟨rfl, (C2_objective_matching (Question.mk QuestionType.objective "A".toList 5) "b".toList
    rfl).2.1⟩

/-- Subjective scores are a function of the answer's word count: the
code's `strip()` emptiness gate coincides with `word_count == 0`. -/
theorem subjective_score_eq (q : Question) (ans : List Char)
    (hq : q.question_type = QuestionType.subjective) :
    (grade_answer q ans).1 =
      if wordCount ans = 0 then 0
      else if wordCount ans ≥ 10 then q.points * (8 / 10)
      else if wordCount ans ≥ 5 then q.points * (6 / 10)
      else q.points * (3 / 10) := by
  obtain ⟨t, ca, pts⟩ := q
  cases t with
  | objective => cases hq
  | subjective =>
    by_cases h0 : pyStrip ans = []
    · have hw : wordCount ans = 0 := (wordCount_eq_zero_iff ans).mpr h0
      simp [grade_answer, h0, hw]
    · have hw : ¬ wordCount ans = 0 := fun h => h0 ((wordCount_eq_zero_iff ans).mp h)
      by_cases h10 : wordCount ans ≥ 10
      · simp [grade_answer, h0, h10, hw]
      · by_cases h5 : wordCount ans ≥ 5
        · simp [grade_answer, h0, h10, h5, hw]
        · simp [grade_answer, h0, h10, h5, hw]

/-- C3: subjective grading scores by the word count of the answer —
0 words score 0, 1-4 words score `points * 0.3`, 5-9 words score
`points * 0.6`, 10 or more words score `points * 0.8` — and with
non-negative points the score is monotone non-decreasing in word
count. -/
theorem C3_subjective_word_bands (q : Question) (ans : List Char)
    (hq : q.question_type = QuestionType.subjective) :
    ((grade_answer q ans).1 =
      if wordCount ans = 0 then 0
      else if wordCount ans ≥ 10 then q.points * (8 / 10)
      else if wordCount ans ≥ 5 then q.points * (6 / 10)
      else q.points * (3 / 10)) ∧
    (0 ≤ q.points → ∀ ans2 : List Char, wordCount ans ≤ wordCount ans2 →
      (grade_answer q ans).1 ≤ (grade_answer q ans2).1) := by
  refine ⟨subjective_score_eq q ans hq, fun hp ans2 hwc => ?_⟩
  rw [subjective_score_eq q ans hq, subjective_score_eq q ans2 hq]
  split_ifs <;> first | linarith | (exfalso; omega)

/-- C3 witness: an 18-word-capable 10-point question, three words versus
five words: 3 (= 10 × 0.3) versus 6 (= 10 × 0.6), monotone. -/
theorem C3_subjective_word_bands_witness :
    (Question.mk QuestionType.subjective [] 10).question_type = QuestionType.subjective ∧
    (0 : ℚ) ≤ (Question.mk QuestionType.subjective [] 10).points ∧
    wordCount "one two three".toList ≤ wordCount "one two three four five".toList ∧
    (grade_answer (Question.mk QuestionType.subjective [] 10) "one two three".toList).1 ≤
      (grade_answer (Question.mk QuestionType.subjective [] 10)
        "one two three four five".toList).1 :=
  ⟨rfl, by norm_num, by decide,
    (C3_subjective_word_bands (Question.mk QuestionType.subjective [] 10)
        "one two three".toList rfl).2 (by norm_num) "one two three four five".toList
      (by decide)⟩

/-- C1 counterexample: an objective question whose `correct_answer` is
missing (stored as the empty string) grades the empty student answer as
a match, awarding the full 5 points instead of the score 0 the claim
requires for every student answer. -/
theorem C1_counterexample :
    (grade_answer (Question.mk QuestionType.objective [] 5) []).1 = 5 ∧
    ((grade_answer (Question.mk QuestionType.objective [] 5) []).1 ≠ 0) := by
  constructor
  · rfl
  · intro h
    have h5 : (5 : ℚ) = 0 := h
    norm_num at h5

/-- C1 amended: `_grade_answer` always returns a `(score, feedback)`
pair (it is total), and for an objective question whose
`correct_answer` is missing (stored as the empty string) every student
answer with non-empty trimmed content scores 0 — but an empty or
whitespace-only student answer matches the empty correct answer and
scores the full `question.points`. -/
theorem C1_missing_correct_answer (q : Question) (ans : List Char)
    (hq : q.question_type = QuestionType.objective) (hca : q.correct_answer = []) :
    (grade_answer q ans).1 = if pyStrip ans = [] then q.points else 0 := by
  obtain ⟨t, ca, pts⟩ := q
  cases t with
  | subjective => cases hq
  | objective =>
    simp only at hca
    subst hca
    have hnil : pyStrip (pyUpper ([] : List Char)) = [] := rfl
    simp only [grade_answer, hnil]
    by_cases h0 : pyStrip ans = []
    · have hup : pyStrip (pyUpper ans) = [] := (pyStrip_pyUpper_eq_nil_iff ans).mpr h0
      rw [if_pos hup, if_pos h0]
    · have hup : ¬ pyStrip (pyUpper ans) = [] :=
        fun h => h0 ((pyStrip_pyUpper_eq_nil_iff ans).mp h)
      rw [if_neg hup, if_neg h0]

/-- C1 amended witness: with a missing correct answer and 7 points, the
answer "x" scores 0 while the all-whitespace answer scores 7. -/
theorem C1_missing_correct_answer_witness :
    (Question.mk QuestionType.objective [] 7).question_type = QuestionType.objective ∧
    (Question.mk QuestionType.objective [] 7).correct_answer = [] ∧
    (grade_answer (Question.mk QuestionType.objective [] 7) ['x']).1 =
      (if pyStrip ['x'] = [] then (7 : ℚ) else 0) ∧
    (grade_answer (Question.mk QuestionType.objective [] 7) [' ']).1 =
      (if pyStrip [' '] = [] then (7 : ℚ) else 0) :=
  ⟨rfl, rfl,
    C1_missing_correct_answer (Question.mk QuestionType.objective [] 7) ['x'] rfl rfl,
    C1_missing_correct_answer (Question.mk QuestionType.objective [] 7) [' '] rfl rfl⟩

/-- C8: the trend report is "Insufficient data" when fewer than two
qualifying percentage points remain, Improving when the last exceeds the
first by more than 5 points, Declining when the last is below the first
by more than 5 points, and Stable otherwise. -/
theorem C8_trend_classification (recent : List SubRecord) :
    ((qualifying_percentages recent).length < 2 →
      analyze_performance_trend recent = "Insufficient data") ∧
    (2 ≤ (qualifying_percentages recent).length →
      ((qualifying_percentages recent).headD 0 + 5 < (qualifying_percentages recent).getLastD 0 →
        analyze_performance_trend recent = " Improving (Keep up the good work!)") ∧
      ((qualifying_percentages recent).getLastD 0 < (qualifying_percentages recent).headD 0 - 5 →
        analyze_performance_trend recent = " Declining (Consider additional study time)") ∧
      ((qualifying_percentages recent).getLastD 0 ≤ (qualifying_percentages recent).headD 0 + 5 →
       (qualifying_percentages recent).headD 0 - 5 ≤ (qualifying_percentages recent).getLastD 0 →
        analyze_performance_trend recent = " Stable (Consistent performance)")) := by
  simp only [analyze_performance_trend]
  split_ifs with h1 h2 h3 <;>
    refine ⟨fun hlen => ?_, fun hlen => ⟨fun himp => ?_, fun hdec => ?_, fun hs1 hs2 => ?_⟩⟩ <;>
    first | rfl | omega | (exfalso; linarith)

/-- C8 witness: two submissions at 50 and 60 percent report Improving. -/
theorem C8_trend_classification_witness :
    2 ≤ (qualifying_percentages [SubRecord.mk 50 100, SubRecord.mk 60 100]).length ∧
    (qualifying_percentages [SubRecord.mk 50 100, SubRecord.mk 60 100]).headD 0 + 5 <
      (qualifying_percentages [SubRecord.mk 50 100, SubRecord.mk 60 100]).getLastD 0 ∧
    analyze_performance_trend [SubRecord.mk 50 100, SubRecord.mk 60 100] =
      " Improving (Keep up the good work!)" := by
  have hq : qualifying_percentages [SubRecord.mk 50 100, SubRecord.mk 60 100] = [50, 60] := by
    norm_num [qualifying_percentages]
  have hlen : 2 ≤ (qualifying_percentages [SubRecord.mk 50 100, SubRecord.mk 60 100]).length := by
    rw [hq]
    norm_num
  have hgap : (qualifying_percentages [SubRecord.mk 50 100, SubRecord.mk 60 100]).headD 0 + 5 <
      (qualifying_percentages [SubRecord.mk 50 100, SubRecord.mk 60 100]).getLastD 0 := by
    rw [hq]
    show (50 : ℚ) + 5 < 60
    norm_num
  exact ⟨hlen, hgap,
    ((C8_trend_classification [SubRecord.mk 50 100, SubRecord.mk 60 100]).2 hlen).1 hgap⟩

/-- C5: class statistics counts every submission in `total_submissions`
but computes average/highest/lowest/pass-rate only over submissions
with positive `max_score`; when none qualify (including the empty list)
every aggregate is 0 and no division is attempted. -/
theorem C5_class_statistics_shape (submissions : List SubRecord) :
    (calculate_class_statistics submissions).total_submissions = submissions.length ∧
    (qualifying_percentages submissions = [] →
      calculate_class_statistics submissions =
        ClassStatistics.mk submissions.length 0 0 0 0) ∧
    (qualifying_percentages submissions ≠ [] →
      (calculate_class_statistics submissions).average_score =
        (qualifying_percentages submissions).sum /
          ((qualifying_percentages submissions).length : ℚ) ∧
      (calculate_class_statistics submissions).highest_score ∈
        qualifying_percentages submissions ∧
      (∀ x ∈ qualifying_percentages submissions,
        x ≤ (calculate_class_statistics submissions).highest_score) ∧
      (calculate_class_statistics submissions).lowest_score ∈
        qualifying_percentages submissions ∧
      (∀ x ∈ qualifying_percentages submissions,
        (calculate_class_statistics submissions).lowest_score ≤ x) ∧
      (calculate_class_statistics submissions).pass_rate =
        (((qualifying_percentages submissions).filter (fun s => s ≥ 60)).length : ℚ) /
          ((qualifying_percentages submissions).length : ℚ) * 100) := by
  simp only [calculate_class_statistics]
  by_cases hsub : submissions = []
  · subst hsub
    rw [if_pos rfl]
    exact ⟨rfl, fun _ => rfl, fun h => absurd rfl h⟩
  · rw [if_neg hsub]
    by_cases hsc : qualifying_percentages submissions = []
    · rw [if_pos hsc]
      exact ⟨rfl, fun _ => rfl, fun h => absurd hsc h⟩
    · rw [if_neg hsc]
      refine ⟨rfl, fun h => absurd h hsc, fun _ => ?_⟩
      refine ⟨rfl, pyMax_mem _ hsc, fun x hx => le_pyMax _ x hx,
        pyMin_mem _ hsc, fun x hx => pyMin_le _ x hx, ?_⟩
      show (if qualifying_percentages submissions ≠ [] then _ else (0 : ℚ)) = _
      rw [if_pos hsc]

/-- C5 witness: one submission at 50 percent of 100 points. -/
theorem C5_class_statistics_shape_witness :
    (calculate_class_statistics [SubRecord.mk 50 100]).total_submissions = 1 ∧
    qualifying_percentages [SubRecord.mk 50 100] ≠ [] ∧
    (calculate_class_statistics [SubRecord.mk 50 100]).highest_score ∈
      qualifying_percentages [SubRecord.mk 50 100] := by
  have h := C5_class_statistics_shape [SubRecord.mk 50 100]
  have hne : qualifying_percentages [SubRecord.mk 50 100] ≠ [] := by
    norm_num [qualifying_percentages]
  exact ⟨h.1, hne, (h.2.2 hne).2.1⟩

/-- C4: with a non-empty question list, `save_submission` stores one
answer row per question in stored order — row `i` grades the answer
looked up at positional index `i`, defaulting to the empty string — and
the stored `total_score` is the sum of the stored per-answer scores,
with `max_score` the sum of the questions' points. -/
theorem C4_save_submission_total (questions : List Question)
    (answers : List (Nat × List Char)) (hq : questions ≠ []) :
    ∃ sub, save_submission questions answers = some sub ∧
      sub.max_score = (questions.map Question.points).sum ∧
      sub.answers.length = questions.length ∧
      (∀ i q, questions.get? i = some q →
        sub.answers.get? i = some (AnswerRow.mk (lookup_answer answers i)
          (grade_answer q (lookup_answer answers i)).1
          (grade_answer q (lookup_answer answers i)).2)) ∧
      sub.total_score = (sub.answers.map AnswerRow.score).sum := by
  simp only [save_submission]
  rw [if_neg hq]
  refine ⟨_, rfl, rfl, ?_, ?_, ?_⟩
  · simp [List.length_map, List.enum_length]
  · intro i q hi
    rw [List.get?_map, List.enum_get?, hi]
    rfl
  · show _ = ((List.map _ (List.map _ questions.enum)).sum : ℚ)
    rw [foldl_add_score, zero_add]

/-- C4 witness: one objective question, no answers supplied — the lone
answer row grades the empty string and the total equals its score. -/
theorem C4_save_submission_total_witness :
    ([Question.mk QuestionType.objective ['A'] 5] : List Question) ≠ [] ∧
    ∃ sub, save_submission [Question.mk QuestionType.objective ['A'] 5] [] = some sub ∧
      sub.max_score = ([Question.mk QuestionType.objective ['A'] 5].map Question.points).sum ∧
      sub.answers.length = [Question.mk QuestionType.objective ['A'] 5].length ∧
      (∀ i q, [Question.mk QuestionType.objective ['A'] 5].get? i = some q →
        sub.answers.get? i = some (AnswerRow.mk (lookup_answer [] i)
          (grade_answer q (lookup_answer [] i)).1
          (grade_answer q (lookup_answer [] i)).2)) ∧
      sub.total_score = (sub.answers.map AnswerRow.score).sum :=
  ⟨List.cons_ne_nil _ _,
    C4_save_submission_total [Question.mk QuestionType.objective ['A'] 5] []
      (List.cons_ne_nil _ _)⟩
